import Mathlib

/-
  Verification development for the feishu-codex-bridge repository.

  Shallow embedding of:
  * the protocol client (`codex/client.go`, `codex/types.go`): line dispatch
    (`handleLine`), request correlation (`sendRequest`), turn input building
    (`TurnStart`);
  * the chat orchestrator (`bridge/bridge.go`): per-chat queues
    (`enqueueMessage` / `chatWorker`), the deferred exit path of
    `processQueuedMessage`, the turn-start retry policy, `switchWorkingDir`;
  * the session store (`session/`), whose implementation file is not in the
    provided sources and is therefore modelled from the spec where needed.

  Go machine integers (int64 request ids) are modelled as `Int`; the protocol
  never comes near overflow and no arithmetic beyond increment is performed on
  them.  Channels of capacity `n` are modelled as lists bounded by `n`, with a
  non-blocking send succeeding exactly when the length is below the bound.
-/

namespace Codex

/-- A JSON value, as far as the wire protocol needs it.  Request/response ids
are integers on this protocol (`int64` in Go). -/
inductive JsonVal where
  | null
  | boolean (b : Bool)
  | num (n : Int)
  | str (s : String)
  | arr (elems : List JsonVal)
  | obj (fields : List (String × JsonVal))
deriving Repr

/-- Field lookup as Go's `encoding/json` performs it on a struct target: keys
are processed in order and a later duplicate overwrites an earlier one, so the
last occurrence wins. -/
def getField (fields : List (String × JsonVal)) (key : String) : Option JsonVal :=
  fields.foldl (fun acc kv => if kv.1 = key then some kv.2 else acc) none

/-- Decoding a JSON field into a Go `int64` struct field: an absent field or a
JSON `null` leaves the zero value; a number is taken as is; any other shape is
an unmarshalling error. -/
def decodeInt : Option JsonVal → Option Int
  | none => some 0
  | some .null => some 0
  | some (.num n) => some n
  | some _ => none

/-- Decoding a JSON field into a Go `string` struct field: absent or `null`
leaves the empty string; a string is taken as is; any other shape errors. -/
def decodeStr : Option JsonVal → Option String
  | none => some ""
  | some .null => some ""
  | some (.str s) => some s
  | some _ => none

/-- `RPCError` of `codex/types.go` (the `data` field accepts anything and is
irrelevant here). -/
structure RPCErr where
  code : Int
  message : String
deriving Repr, DecidableEq

/-- Unmarshalling a JSON value into `RPCError`. -/
def decodeRPCErr : JsonVal → Option RPCErr
  | .obj fields => do
      let code ← decodeInt (getField fields "code")
      let message ← decodeStr (getField fields "message")
      pure ⟨code, message⟩
  | _ => none

/-- Decoding the `error` field into the `*RPCError` pointer field: absent or
`null` leaves a nil pointer; an object is decoded; any other shape errors. -/
def decodeErrField : Option JsonVal → Option (Option RPCErr)
  | none => some none
  | some .null => some none
  | some (.obj fs) => (decodeRPCErr (.obj fs)).map some
  | some _ => none

/-- `Response` of `codex/types.go`: `ID int64`, `Result json.RawMessage`
(accepts any raw JSON, kept verbatim), `Error *RPCError`. -/
structure Response where
  id : Int
  result : Option JsonVal
  error : Option RPCErr
deriving Repr

/-- `json.Unmarshal(line, &resp)` for `resp : Response`.  Unknown fields (such
as `method` or `params`) are ignored, exactly as Go's decoder ignores them. -/
def unmarshalResponse : JsonVal → Option Response
  | .obj fields => do
      let id ← decodeInt (getField fields "id")
      let e ← decodeErrField (getField fields "error")
      pure ⟨id, getField fields "result", e⟩
  | _ => none

/-- `Notification` of `codex/types.go`: `ID int64` (server requests carry an
id), `Method string`, `Params json.RawMessage`. -/
structure Notification where
  id : Int
  method : String
  params : Option JsonVal
deriving Repr

/-- `json.Unmarshal(line, &notif)` for `notif : Notification`. -/
def unmarshalNotification : JsonVal → Option Notification
  | .obj fields => do
      let id ← decodeInt (getField fields "id")
      let method ← decodeStr (getField fields "method")
      pure ⟨id, method, getField fields "params"⟩
  | _ => none

/-- `Event` of `codex/client.go`: what the read loop forwards on the events
channel. -/
structure Event where
  method : String
  params : Option JsonVal
deriving Repr

/-- Capacity of the events channel, from `NewClient`:
`events: make(chan Event, 100)`. -/
def eventsCapacity : Nat := 100

/-- The externally visible effects of one `handleLine` call. -/
structure LineEffects where
  /-- a response was sent into the waiter channel registered under this id -/
  delivered : Option Int
  /-- `RespondToApproval(id, decision)` was called (a `{id, result:{decision}}`
  line was written to the child's stdin) -/
  approval : Option (Int × String)
  /-- a regular notification with this method was pushed onto the events
  channel -/
  enqueued : Option String
  /-- the events channel was full, so a notification with this method was
  dropped and logged -/
  droppedEvent : Option String
deriving Repr, DecidableEq

/-- No externally visible effect. -/
def noEffects : LineEffects := ⟨none, none, none, none⟩

/-- The JSON line `RespondToApproval` writes back:
`{id, result:{decision}}` (no `acceptSettings` are set by the caller). -/
def approvalResponseJson (requestID : Int) (decision : String) : JsonVal :=
  .obj [("id", .num requestID), ("result", .obj [("decision", .str decision)])]

/-- Second half of `handleLine` (`codex/client.go:367-384`): the line was not
consumed as a response, so it is tried as a `Notification`.  A parse with a
non-empty method and a nonzero id triggers `RespondToApproval(id, "accept")`;
with id 0 the event goes to the events channel via a non-blocking send that
drops the newest event when the channel is full; anything else is ignored. -/
def handleLineNotif (pending : List Int) (events : List Event) (line : JsonVal) :
    List Int × List Event × LineEffects :=
  match unmarshalNotification line with
  | some notif =>
    if notif.method ≠ "" then
      if notif.id ≠ 0 then
        (pending, events, { noEffects with approval := some (notif.id, "accept") })
      else if events.length < eventsCapacity then
        (pending, events ++ [⟨notif.method, notif.params⟩],
          { noEffects with enqueued := some notif.method })
      else
        (pending, events, { noEffects with droppedEvent := some notif.method })
    else
      (pending, events, noEffects)
  | none => (pending, events, noEffects)

/-- `handleLine` (`codex/client.go:354-384`).  `pending` is the set of request
ids with a registered single-slot waiter; `events` the current contents of the
events channel.  The first branch tries the line as a `Response`: if that
unmarshal succeeds with a nonzero id, the line is routed to the waiter for
that id (deleting the waiter) or silently dropped when no waiter is
registered, and `handleLine` returns.  Only otherwise is the line tried as a
notification. -/
def handleLine (pending : List Int) (events : List Event) (line : JsonVal) :
    List Int × List Event × LineEffects :=
  match unmarshalResponse line with
  | some resp =>
    if resp.id ≠ 0 then
      if pending.contains resp.id then
        (pending.erase resp.id, events, { noEffects with delivered := some resp.id })
      else
        (pending, events, noEffects)
    else
      handleLineNotif pending events line
  | none => handleLineNotif pending events line

/-- The part of the client state `sendRequest` touches: the `running` flag,
the monotonically increasing `requestID`, and the ids registered in the
`pending` waiter map. -/
structure ClientModel where
  running : Bool
  requestID : Int
  pending : List Int
deriving Repr, DecidableEq

/-- Environment outcome of one `sendRequest` call: which arm of the final
`select` fires first. -/
inductive SendOutcome where
  | responded (resp : Response)
  | timedOut
  | canceled

/-- Result of `sendRequest` as seen by its caller. -/
inductive SendResult where
  | ok (resp : Response)
  | rpcErrorResult (code : Int) (message : String)
  | notRunningErr
  | writeErr
  | timedOutErr (method : String)
  | canceledErr
deriving Repr

/-- `sendRequest` (`codex/client.go:272-313`).  Returns the client state at
the moment the call returns, whether a write to the child's stdin was
attempted, and the caller-visible result.

* Not running: error before any id is allocated or waiter registered.
* Otherwise a fresh id is allocated and a waiter registered under it; a write
  failure deregisters the waiter and errors.
* `responded`: the read loop (`handleLine`) removed the waiter when it
  delivered the response, so the entry is gone when `sendRequest` returns; a
  server error object surfaces as an RPC error.
* `timedOut`: `sendRequest` itself deletes the waiter, then errors.
* `canceled` (`<-c.ctx.Done()`): `sendRequest` returns the context error
  without touching the pending map — the waiter entry stays registered. -/
def sendRequest (c : ClientModel) (method : String) (writeOk : Bool)
    (outcome : SendOutcome) : ClientModel × Bool × SendResult :=
  if !c.running then
    (c, false, .notRunningErr)
  else
    let id := c.requestID + 1
    let c1 : ClientModel := { c with requestID := id, pending := c.pending ++ [id] }
    if !writeOk then
      ({ c1 with pending := c1.pending.erase id }, true, .writeErr)
    else
      match outcome with
      | .responded resp =>
        let c2 : ClientModel := { c1 with pending := c1.pending.erase id }
        match resp.error with
        | some e => (c2, true, .rpcErrorResult e.code e.message)
        | none => (c2, true, .ok resp)
      | .timedOut =>
        ({ c1 with pending := c1.pending.erase id }, true, .timedOutErr method)
      | .canceled =>
        (c1, true, .canceledErr)

/-- `UserInput` of `codex/types.go`. -/
structure UserInput where
  type : String
  text : String := ""
  url : String := ""
  path : String := ""
deriving Repr, DecidableEq

/-- The input array `TurnStart` builds (`codex/client.go:196-209`): it starts
from a single text part carrying the prompt and appends one `localImage` part
per image path, in range order. -/
def turnStartInput (prompt : String) (images : List String) : List UserInput :=
  images.foldl (fun input img => input ++ [{ type := "localImage", path := img }])
    [{ type := "text", text := prompt }]

end Codex

/-- `strings.Contains(s, pat)`: `startsWithChars l p` checks that `p` is an
initial segment of `l`. -/
def startsWithChars : List Char → List Char → Bool
  | _, [] => true
  | [], _ :: _ => false
  | c :: cs, p :: ps => c == p && startsWithChars cs ps

/-- `strings.Contains` on character lists: the pattern occurs at some
position. -/
def hasSubChars : List Char → List Char → Bool
  | [], pat => pat.isEmpty
  | c :: cs, pat => startsWithChars (c :: cs) pat || hasSubChars cs pat

/-- Go's `strings.Contains(s, pat)`. -/
def strContains (s pat : String) : Bool :=
  hasSubChars s.toList pat.toList

namespace Bridge

/-- The fields of `feishu.Message` the orchestrator reads. -/
structure Msg where
  chatID : String
  msgID : String
  chatType : String
  content : String
deriving Repr, DecidableEq

/-- Capacity of a per-chat queue channel, from `enqueueMessage`:
`make(chan *feishu.Message, 100)`. -/
def queueCapacity : Nat := 100

/-- `chatQueue` of `bridge/bridge.go`: the buffered channel feeding the
worker, and the `pending` display list mirroring it. -/
structure ChatQueue where
  ch : List Msg
  pending : List Msg
deriving Repr, DecidableEq

/-- `removePendingByMsgID` (`bridge/bridge.go:921-933`): keeps every entry
whose message id differs (nil entries, which the model has none of, are also
kept). -/
def removePendingByMsgID (pending : List Msg) (msgID : String) : List Msg :=
  pending.filter (fun m => m.msgID ≠ msgID)

/-- The queue mutation performed by `enqueueMessage`
(`bridge/bridge.go:248-257`) on the chat's queue: the message is appended to
`pending`, then `trySendQueue` attempts a non-blocking channel send; if the
channel is full the message is taken back out of `pending` (and the sender is
notified) instead of being buffered beyond the bound. -/
def enqueueMessage (q : ChatQueue) (m : Msg) : ChatQueue × Bool :=
  let q1 : ChatQueue := { q with pending := q.pending ++ [m] }
  if q1.ch.length < queueCapacity then
    ({ q1 with ch := q1.ch ++ [m] }, true)
  else
    ({ q1 with pending := removePendingByMsgID q1.pending m.msgID }, false)

/-- One receive of `chatWorker` (`bridge/bridge.go:275-294`): the channel
yields its oldest buffered message, which is removed from `pending` and then
processed.  `none` when the channel holds nothing. -/
def dequeue (q : ChatQueue) : Option (Msg × ChatQueue) :=
  match q.ch with
  | [] => none
  | m :: rest => some (m, { ch := rest, pending := removePendingByMsgID q.pending m.msgID })

/-- The message the worker processes at its `n`-th receive (0-based), obtained
by iterating `dequeue`. -/
def dequeueAt : ChatQueue → Nat → Option Msg
  | q, 0 => (dequeue q).map (·.1)
  | q, n + 1 =>
    match dequeue q with
    | none => none
    | some (_, q') => dequeueAt q' n

/-- `enqueueMessage` (`bridge/bridge.go:236-246`) creates the chat's queue and
spawns its worker goroutine only when the chat has no queue yet.  `workers`
lists the chats for which a worker goroutine exists. -/
def spawnWorkerIfAbsent (queues : List (String × ChatQueue)) (workers : List String)
    (chatID : String) : List String :=
  match queues.lookup chatID with
  | some _ => workers
  | none => workers ++ [chatID]

/-- The per-chat worker state `processQueuedMessage` manipulates
(`ChatState` of `bridge/bridge.go`).  The done channel is identified by a
token; `none` is a nil channel. -/
structure ChatStateM where
  threadID : String
  turnID : String
  msgID : String
  processingReactionID : String
  processing : Bool
  gen : Nat
  chatType : String
  done : Option Nat
  buffer : String
  lastItem : String
deriving Repr, DecidableEq

/-- Messaging side effect of the deferred exit path. -/
inductive ExitEffect where
  | removeReaction (msgID reactionID : String)
  | closeDone
deriving Repr, DecidableEq

/-- The deferred exit path of `processQueuedMessage`
(`bridge/bridge.go:315-336`).  `gen` is the generation snapshotted when the
message started; `done` identifies the done channel created then.  Only when
the chat's generation still equals the snapshot does the path read the message
id and reaction id, clear `Processing`/`done`/`ProcessingReactionID`, remove
the transient reaction (when both ids are non-empty) and close the done
channel (when it is still the same one); otherwise it touches nothing. -/
def processExit (st : ChatStateM) (gen : Nat) (done : Nat) : ChatStateM × List ExitEffect :=
  if st.gen = gen then
    let msgID := st.msgID
    let reactionID := st.processingReactionID
    let shouldClose := st.done = some done
    let st' : ChatStateM := { st with processing := false, done := none, processingReactionID := "" }
    (st',
      (if msgID ≠ "" ∧ reactionID ≠ "" then [.removeReaction msgID reactionID] else []) ++
      (if shouldClose then [.closeDone] else []))
  else
    (st, [])

/-- Observable actions of the turn-start section of `processQueuedMessage`. -/
inductive BridgeAction where
  | deleteSession (chatID : String)
  | threadStart
  | createSession (chatID threadID : String)
  | turnStart (threadID : String)
  | replyError (text : String)
deriving Repr, DecidableEq

/-- Outcome of one `TurnStart` RPC. -/
inductive TsOutcome where
  | ok (turnID : String)
  | err (msg : String)
deriving Repr, DecidableEq

/-- Environment for the turn-start section: the outcome of the first
`TurnStart`, of the `ThreadStart` issued on the recovery path, and of the
retried `TurnStart`. -/
structure TurnEnv where
  firstTurn : TsOutcome
  newThread : Except String String
  retryTurn : TsOutcome

/-- `sendReply` of `processQueuedMessage` (`bridge/bridge.go:347-361`): the
error text is posted to the chat only when the generation observed at that
moment still equals the snapshot and the message has not been recalled. -/
def sendReplyActs (gen observed : Nat) (recalled : Bool) (text : String) : List BridgeAction :=
  if observed ≠ gen then []
  else if recalled then []
  else [.replyError text]

/-- The turn-start section of `processQueuedMessage`
(`bridge/bridge.go:405-432`), as the sequence of observable actions plus the
turn id it continues with (`none` when the message is aborted).  `observed` is
the chat generation read at each in-section check (the section itself never
changes it; a concurrent invalidation would).  When the first `TurnStart`
fails with an error containing "thread not found", the stale session is
deleted, a new thread is started and persisted, and the `TurnStart` is retried
exactly once; any other first failure, and a failure of the retry, posts an
error reply and aborts. -/
def startTurnPhase (chatID threadID : String) (gen observed : Nat) (recalled : Bool)
    (env : TurnEnv) : List BridgeAction × Option String :=
  let attempt1 : List BridgeAction := [.turnStart threadID]
  match env.firstTurn with
  | .ok turnID => (attempt1, some turnID)
  | .err msg =>
    if strContains msg "thread not found" then
      let acts := attempt1 ++ [.deleteSession chatID, .threadStart]
      match env.newThread with
      | .error e =>
        (acts ++ sendReplyActs gen observed recalled ("❌ 创建会话失败: " ++ e), none)
      | .ok newThreadID =>
        let acts := acts ++ [.createSession chatID newThreadID]
        if observed ≠ gen then (acts, none)
        else
          let acts := acts ++ [.turnStart newThreadID]
          match env.retryTurn with
          | .err m2 =>
            (acts ++ sendReplyActs gen observed recalled ("❌ 发送请求失败: " ++ m2), none)
          | .ok turnID => (acts, some turnID)
    else
      (attempt1 ++ sendReplyActs gen observed recalled ("❌ 发送请求失败: " ++ msg), none)

/-- Whether an action is a `TurnStart` attempt. -/
def isTurnStartAct : BridgeAction → Bool
  | .turnStart _ => true
  | .deleteSession _ => false
  | .threadStart => false
  | .createSession _ _ => false
  | .replyError _ => false

/-- Number of `TurnStart` attempts in an action trace. -/
def countTurnStarts (acts : List BridgeAction) : Nat :=
  acts.countP isTurnStartAct

/-- The bridge state `switchWorkingDir` can touch. -/
structure BridgeModel where
  workingDir : String
  /-- identity of the live protocol client instance -/
  codexClient : Nat
  /-- next fresh client identity -/
  nextClient : Nat
  /-- session store contents: chatID → threadID -/
  sessions : List (String × String)
  chatStates : List (String × ChatStateM)
  activeThreads : List String
  queues : List (String × ChatQueue)
deriving Repr, DecidableEq

/-- Environment for `switchWorkingDir`: results of `filepath.Abs`, `os.Stat`
(error, or whether the path is a directory), and whether starting the new and
the restored client succeeds. -/
structure SwitchEnv where
  absDir : Except String String
  statIsDir : Except String Bool
  newStartOk : Bool
  restoreStartOk : Bool

/-- The rejection message of `switchWorkingDir` when threads are globally
active (`bridge/bridge.go:622`). -/
def switchErrMsg (active : Nat) : String :=
  "当前有 " ++ toString active ++ " 个任务正在运行，请等待完成后再切换"

/-- Reset of this chat's state performed by a successful directory switch
(`bridge/bridge.go:660-669`): thread and turn cleared, the done channel closed
and nilled, the buffer reset. -/
def resetChatStateForSwitch (st : ChatStateM) : ChatStateM :=
  { st with threadID := "", turnID := "", done := none, buffer := "" }

/-- Update the state registered for a chat (the map write under the lock). -/
def updateChatState (states : List (String × ChatStateM)) (chatID : String)
    (f : ChatStateM → ChatStateM) : List (String × ChatStateM) :=
  states.map fun kv => if kv.1 = chatID then (kv.1, f kv.2) else kv

/-- Drop this chat's queued messages (`bridge/bridge.go:677-691`): the pending
list is nilled and the channel drained. -/
def dropQueuedMessages (queues : List (String × ChatQueue)) (chatID : String) :
    List (String × ChatQueue) :=
  queues.map fun kv => if kv.1 = chatID then (kv.1, ⟨[], []⟩) else kv

/-- `switchWorkingDir` (`bridge/bridge.go:614-694`).  Guarded by the exclusive
switch section: while any thread is globally active the request is rejected
with an error naming the count and nothing is touched.  Otherwise the path is
normalised and checked; switching to the current directory is a no-op; else
the old client is stopped and a new one started under the new directory
(restoring a client rooted at the previous directory on start failure), the
chat's session is deleted, its state reset, the active set cleared, and the
chat's queued messages dropped. -/
def switchWorkingDir (b : BridgeModel) (env : SwitchEnv) (chatID _newDir : String) :
    BridgeModel × Except String Unit :=
  let active := b.activeThreads.length
  if active > 0 then
    (b, .error (switchErrMsg active))
  else
    match env.absDir with
    | .error e => (b, .error ("无效路径：" ++ e))
    | .ok absDir =>
      match env.statIsDir with
      | .error e => (b, .error ("目录不存在或不可访问：" ++ e))
      | .ok isDir =>
        if !isDir then
          (b, .error ("不是目录：" ++ absDir))
        else if absDir = b.workingDir then
          (b, .ok ())
        else if !env.newStartOk then
          if env.restoreStartOk then
            ({ b with codexClient := b.nextClient, nextClient := b.nextClient + 1 },
              .error "启动 Codex 失败")
          else
            (b, .error "启动 Codex 失败")
        else
          ({ b with
              codexClient := b.nextClient
              nextClient := b.nextClient + 1
              workingDir := absDir
              sessions := b.sessions.filter (fun kv => kv.1 ≠ chatID)
              chatStates := updateChatState b.chatStates chatID resetChatStateForSwitch
              activeThreads := []
              queues := dropQueuedMessages b.queues chatID },
            .ok ())

end Bridge

namespace Session

/-- `Entry` of the session store: chatID (key), threadID, timestamps at second
resolution. -/
structure Entry where
  chatID : String
  threadID : String
  createdAt : Nat
  updatedAt : Nat
deriving Repr, DecidableEq

/-- Modelled from the spec: the Session Store implementation
(`session/store.go`) is not among the provided sources — only its tests and
callers are.  Per the spec, "Create(chatID, threadID): upsert; replaces any
prior mapping — at most one live thread per chat", with one durable record per
chatID carrying `{threadID, createdAt, updatedAt}`.  `create` replaces any
record keyed by `chatID` with a fresh one carrying `threadID`, stamped `now`. -/
def create (entries : List Entry) (chatID threadID : String) (now : Nat) : List Entry :=
  (entries.filter fun e => e.chatID ≠ chatID) ++ [⟨chatID, threadID, now, now⟩]

end Session

/-- Concrete server-initiated approval request, the line of
`TestHandleLineApprovalRequest` in `codex/client_test.go`:
`{"id": 100, "method": "item/commandExecution/requestApproval", "params": {"command": "ls"}}`. -/
def approvalRequestLine : Codex.JsonVal :=
  .obj [("id", .num 100), ("method", .str "item/commandExecution/requestApproval"),
        ("params", .obj [("command", .str "ls")])]

/-- An events channel filled to its bound of 100. -/
def fullEvents : List Codex.Event := List.replicate 100 ⟨"fill", none⟩

/-- A regular notification line (no id): `{"method": "test/notification", "params": {}}`. -/
def plainNotifLine : Codex.JsonVal :=
  .obj [("method", .str "test/notification"), ("params", .obj [])]

/-- Two concrete messages for the same chat. -/
def msgA : Bridge.Msg := ⟨"oc_chat1", "om_m1", "p2p", "first"⟩

/-- Second concrete message for the same chat. -/
def msgB : Bridge.Msg := ⟨"oc_chat1", "om_m2", "p2p", "second"⟩

/- ===================== Helper lemmas ===================== -/

/-- A left fold that appends one element per step equals the initial segment
followed by the mapped list. -/
theorem foldl_push_eq_append_map {α β : Type} (f : α → β) :
    ∀ (l : List α) (init : List β),
      l.foldl (fun acc x => acc ++ [f x]) init = init ++ l.map f := by
  intro l
  induction l with
  | nil => intro init; simp
  | cons x xs ih => intro init; simp [List.foldl_cons, ih]

/-- Filtering for the key after filtering it away yields nothing. -/
theorem filter_ne_then_eq_nil (entries : List Session.Entry) (chatID : String) :
    ((entries.filter fun e => e.chatID ≠ chatID).filter fun e => e.chatID = chatID) = [] := by
  induction entries with
  | nil => rfl
  | cons e rest ih =>
    by_cases h : e.chatID = chatID <;> simp [List.filter_cons, h, ih]

/-- Iterated `dequeue` returns exactly the channel contents, in order. -/
theorem dequeueAt_eq_getElem (n : Nat) :
    ∀ q : Bridge.ChatQueue, Bridge.dequeueAt q n = q.ch[n]? := by
  induction n with
  | zero =>
    intro q
    cases hch : q.ch <;> simp [Bridge.dequeueAt, Bridge.dequeue, hch]
  | succ n ih =>
    intro q
    cases hch : q.ch with
    | nil => simp [Bridge.dequeueAt, Bridge.dequeue, hch]
    | cons m rest => simp [Bridge.dequeueAt, Bridge.dequeue, hch, ih]

/- ===================== Claim theorems ===================== -/

/-- C10: `TurnStart` builds the request input as exactly one text part carrying
the prompt, placed first, followed by one `localImage` part per image path, in
the order of the given list. -/
theorem turnStartInput_structure (prompt : String) (images : List String) :
    (Codex.turnStartInput prompt images).length = images.length + 1 ∧
    (Codex.turnStartInput prompt images)[0]? = some { type := "text", text := prompt } ∧
    ∀ i : Nat, (Codex.turnStartInput prompt images)[i + 1]? =
      (images[i]?).map fun img => { type := "localImage", path := img } := by
  have h : Codex.turnStartInput prompt images =
      { type := "text", text := prompt } ::
        images.map (fun img => { type := "localImage", path := img }) := by
    simp [Codex.turnStartInput, foldl_push_eq_append_map]
  refine ⟨?_, ?_, ?_⟩
  · rw [h]; simp
  · rw [h]; simp
  · intro i; rw [h]; simp [List.getElem?_map]

/-- C8: the session store's `Create` is an upsert keyed by `chatID`: after
`Create(chatID, X)` then `Create(chatID, Y)` the store holds exactly one entry
for `chatID`, and its thread id is `Y`. -/
theorem create_upsert_replaces (entries : List Session.Entry) (chatID x y : String)
    (t1 t2 : Nat) :
    ((Session.create (Session.create entries chatID x t1) chatID y t2).filter
        (fun e => e.chatID = chatID)).map Session.Entry.threadID = [y] := by
  have key : ∀ l : List Session.Entry,
      (Session.create l chatID y t2).filter (fun e => e.chatID = chatID) =
        [⟨chatID, y, t2, t2⟩] := by
    intro l
    simp only [Session.create, List.filter_append]
    rw [filter_ne_then_eq_nil]
    simp
  rw [key]
  rfl

/-- C5: when per-message processing exits and the chat's generation no longer
equals the snapshot taken at the start, the exit path mutates nothing — the
chat state is returned unchanged and no reaction removal or channel close is
issued. -/
theorem processExit_stale_generation_no_mutation (st : Bridge.ChatStateM) (gen done : Nat)
    (h : st.gen ≠ gen) :
    Bridge.processExit st gen done = (st, []) := by
  simp [Bridge.processExit, h]

/-- Witness for C5 at a concrete state whose generation moved from 3 to 5. -/
theorem processExit_stale_generation_no_mutation_witness :
    Bridge.processExit ⟨"t1", "u1", "m1", "r1", true, 5, "group", some 7, "buf", ""⟩ 3 7 =
      (⟨"t1", "u1", "m1", "r1", true, 5, "group", some 7, "buf", ""⟩, []) :=
  processExit_stale_generation_no_mutation _ 3 7 (by decide)

/-- C9: `sendRequest` on a non-running client fails immediately: the state is
unchanged (no request id allocated, no waiter registered) and no write to the
child's stdin is attempted. -/
theorem sendRequest_not_running_no_effects (c : Codex.ClientModel) (method : String)
    (writeOk : Bool) (outcome : Codex.SendOutcome) (h : c.running = false) :
    Codex.sendRequest c method writeOk outcome = (c, false, .notRunningErr) := by
  simp [Codex.sendRequest, h]

/-- Witness for C9 on a freshly constructed (never started) client. -/
theorem sendRequest_not_running_no_effects_witness :
    Codex.sendRequest ⟨false, 0, []⟩ "thread/start" true .timedOut =
      (⟨false, 0, []⟩, false, .notRunningErr) :=
  sendRequest_not_running_no_effects ⟨false, 0, []⟩ "thread/start" true .timedOut rfl

/-- C2 counterexample: a `sendRequest` call that returns because the process
context was canceled leaves its waiter registered in the pending map — the
claim that the waiter is removed on the cancellation path is false. -/
theorem sendRequest_canceled_waiter_remains :
    (Codex.sendRequest ⟨true, 0, []⟩ "turn/start" true .canceled).2.2 = .canceledErr ∧
    (1 : Int) ∈ (Codex.sendRequest ⟨true, 0, []⟩ "turn/start" true .canceled).1.pending := by
  refine ⟨rfl, ?_⟩
  simp [Codex.sendRequest]

/-- C2 amended: on the timeout path the waiter is deregistered before
`sendRequest` returns; on the context-cancellation path it is not — the entry
stays in the pending map. -/
theorem sendRequest_timeout_deregisters_waiter (c : Codex.ClientModel) (method : String)
    (writeOk : Bool) (hrun : c.running = true)
    (hfresh : ∀ i ∈ c.pending, i ≤ c.requestID) :
    (c.requestID + 1) ∉ (Codex.sendRequest c method writeOk .timedOut).1.pending ∧
    (c.requestID + 1) ∈ (Codex.sendRequest c method true .canceled).1.pending := by
  have hid : (c.requestID + 1) ∉ c.pending := by
    intro hm
    have := hfresh _ hm
    omega
  have herase : (c.pending ++ [c.requestID + 1]).erase (c.requestID + 1) = c.pending := by
    rw [List.erase_append_right _ hid, List.erase_cons_head, List.append_nil]
  constructor
  · by_cases hw : writeOk <;>
      simp [Codex.sendRequest, hrun, hw, herase, hid]
  · simp [Codex.sendRequest, hrun]

/-- Witness for the amended C2 on a fresh running client. -/
theorem sendRequest_timeout_deregisters_waiter_witness :
    ((0 : Int) + 1) ∉ (Codex.sendRequest ⟨true, 0, []⟩ "thread/start" true .timedOut).1.pending ∧
    ((0 : Int) + 1) ∈ (Codex.sendRequest ⟨true, 0, []⟩ "thread/start" true .canceled).1.pending :=
  sendRequest_timeout_deregisters_waiter ⟨true, 0, []⟩ "thread/start" true rfl (by simp)

/-- C3: a working-directory switch requested while threads are globally active
is rejected with an error naming the active count, and the whole bridge state
— protocol client, working-directory configuration, session store, chat
states, and queued messages — is returned unchanged. -/
theorem switchWorkingDir_rejects_while_active (b : Bridge.BridgeModel)
    (env : Bridge.SwitchEnv) (chatID newDir : String)
    (h : 0 < b.activeThreads.length) :
    Bridge.switchWorkingDir b env chatID newDir =
      (b, .error (Bridge.switchErrMsg b.activeThreads.length)) ∧
    ∃ pre post, Bridge.switchErrMsg b.activeThreads.length =
      pre ++ toString b.activeThreads.length ++ post := by
  refine ⟨by simp [Bridge.switchWorkingDir, h],
    "当前有 ", " 个任务正在运行，请等待完成后再切换", rfl⟩

/-- Witness for C3: one active thread, concrete bridge state. -/
theorem switchWorkingDir_rejects_while_active_witness :
    Bridge.switchWorkingDir ⟨"/w", 0, 1, [], [], ["th1"], []⟩
        ⟨.ok "/x", .ok true, true, true⟩ "oc_chat1" "/x" =
      (⟨"/w", 0, 1, [], [], ["th1"], []⟩,
        .error (Bridge.switchErrMsg 1)) ∧
    ∃ pre post, Bridge.switchErrMsg 1 = pre ++ toString 1 ++ post :=
  switchWorkingDir_rejects_while_active ⟨"/w", 0, 1, [], [], ["th1"], []⟩
    ⟨.ok "/x", .ok true, true, true⟩ "oc_chat1" "/x" (by decide)

/-- If a line unmarshals as a `Notification`, then unmarshalling it as a
`Response` either fails or yields the same id (both decode the `id` field the
same way). -/
theorem unmarshalResponse_id_of_notification (fields : List (String × Codex.JsonVal))
    (n : Codex.Notification)
    (hn : Codex.unmarshalNotification (.obj fields) = some n) :
    Codex.unmarshalResponse (.obj fields) = none ∨
    ∃ r, Codex.unmarshalResponse (.obj fields) = some r ∧ r.id = n.id := by
  unfold Codex.unmarshalNotification at hn
  unfold Codex.unmarshalResponse
  cases hi : Codex.decodeInt (Codex.getField fields "id") with
  | none => simp [hi] at hn
  | some i =>
    cases hm : Codex.decodeStr (Codex.getField fields "method") with
    | none => simp [hi, hm] at hn
    | some m =>
      simp [hi, hm] at hn
      cases he : Codex.decodeErrField (Codex.getField fields "error") with
      | none => left; simp [hi, he]
      | some e =>
        right
        refine ⟨⟨i, Codex.getField fields "result", e⟩, by simp [hi, he], ?_⟩
        subst hn
        rfl

/-- C1 (code evaluated at the failing input): the approval-request line
`{"id":100,"method":"item/commandExecution/requestApproval","params":{"command":"ls"}}`
does carry a nonzero id and a method, yet `handleLine` (with no waiter
registered) consumes it on the response branch: no `{id, result:{decision:
"accept"}}` response is sent, and nothing reaches the events channel. -/
theorem handleLine_approval_request_unanswered :
    (Codex.unmarshalNotification approvalRequestLine).map (fun n => (n.id, n.method)) =
      some (100, "item/commandExecution/requestApproval") ∧
    Codex.handleLine [] [] approvalRequestLine = ([], [], Codex.noEffects) :=
  ⟨rfl, rfl⟩

/-- C7: when the events channel already holds its bound of 100 events, a
further regular notification is dropped and logged: the pending map and the
channel contents are unchanged, nothing is enqueued, and the newest
notification's method is the one logged as dropped. -/
theorem handleLine_full_channel_drops_newest (pending : List Int)
    (events : List Codex.Event) (line : Codex.JsonVal) (notif : Codex.Notification)
    (hcap : events.length = Codex.eventsCapacity)
    (hn : Codex.unmarshalNotification line = some notif)
    (hm : notif.method ≠ "")
    (hid : notif.id = 0) :
    Codex.handleLine pending events line =
      (pending, events, { Codex.noEffects with droppedEvent := some notif.method }) := by
  have hfull : ¬ events.length < Codex.eventsCapacity := by
    rw [hcap]; exact Nat.lt_irrefl _
  cases line with
  | obj fields =>
    have hnotif : Codex.handleLineNotif pending events (.obj fields) =
        (pending, events, { Codex.noEffects with droppedEvent := some notif.method }) := by
      unfold Codex.handleLineNotif
      rw [hn]
      simp [hm, hid, hfull]
    unfold Codex.handleLine
    rcases unmarshalResponse_id_of_notification fields notif hn with h | ⟨r, hr, hrid⟩
    · rw [h]; exact hnotif
    · rw [hr]
      have : ¬ r.id ≠ 0 := by rw [hrid, hid]; simp
      simp only [this, if_false]
      exact hnotif
  | null => simp [Codex.unmarshalNotification] at hn
  | boolean b => simp [Codex.unmarshalNotification] at hn
  | num n => simp [Codex.unmarshalNotification] at hn
  | str s => simp [Codex.unmarshalNotification] at hn
  | arr elems => simp [Codex.unmarshalNotification] at hn

/-- Witness for C7: a full channel (100 events) and a concrete notification
line; the newest notification is dropped, the channel untouched. -/
theorem handleLine_full_channel_drops_newest_witness :
    Codex.handleLine [] fullEvents plainNotifLine =
      ([], fullEvents, { Codex.noEffects with droppedEvent := some "test/notification" }) :=
  handleLine_full_channel_drops_newest [] fullEvents plainNotifLine
    ⟨0, "test/notification", some (.obj [])⟩
    (by simp [fullEvents, Codex.eventsCapacity]) rfl (by decide) rfl

/-- C6: within one chat the queue is strict FIFO: two messages both accepted
into the chat's queue are handed to the chat's worker in enqueue order (the
first-enqueued at the earlier dequeue position), the worker's receive sequence
is exactly the channel contents in order, and a worker is spawned for a chat
only when the chat has no queue yet — so each chat has a single worker,
processing one message at a time. -/
theorem chatQueue_fifo_order (q q1 q2 : Bridge.ChatQueue) (a b : Bridge.Msg)
    (queues : List (String × Bridge.ChatQueue)) (workers : List String) (chatID : String)
    (h1 : Bridge.enqueueMessage q a = (q1, true))
    (h2 : Bridge.enqueueMessage q1 b = (q2, true)) :
    Bridge.dequeueAt q2 q.ch.length = some a ∧
    Bridge.dequeueAt q2 (q.ch.length + 1) = some b ∧
    (∀ n, Bridge.dequeueAt q2 n = q2.ch[n]?) ∧
    (Bridge.spawnWorkerIfAbsent queues workers chatID = workers ∨
      (queues.lookup chatID = none ∧
        Bridge.spawnWorkerIfAbsent queues workers chatID = workers ++ [chatID])) := by
  have hq1 : q1.ch = q.ch ++ [a] := by
    have hfst : (Bridge.enqueueMessage q a).1 = q1 := by rw [h1]
    by_cases h : q.ch.length < Bridge.queueCapacity
    · rw [← hfst]; simp [Bridge.enqueueMessage, h]
    · have hsnd : (Bridge.enqueueMessage q a).2 = true := by rw [h1]
      simp [Bridge.enqueueMessage, h] at hsnd
  have hq2 : q2.ch = q.ch ++ [a, b] := by
    have hfst : (Bridge.enqueueMessage q1 b).1 = q2 := by rw [h2]
    by_cases h : q1.ch.length < Bridge.queueCapacity
    · have h' : q.ch.length + 1 < Bridge.queueCapacity := by simpa [hq1] using h
      rw [← hfst]; simp [Bridge.enqueueMessage, hq1, h']
    · have hsnd : (Bridge.enqueueMessage q1 b).2 = true := by rw [h2]
      simp [Bridge.enqueueMessage, h] at hsnd
  refine ⟨?_, ?_, fun n => dequeueAt_eq_getElem n q2, ?_⟩
  · rw [dequeueAt_eq_getElem, hq2, List.getElem?_append_right (Nat.le_refl _)]
    simp
  · rw [dequeueAt_eq_getElem, hq2, List.getElem?_append_right (Nat.le_add_right _ _)]
    simp
  · cases hl : queues.lookup chatID with
    | none => right; exact ⟨rfl, by simp [Bridge.spawnWorkerIfAbsent, hl]⟩
    | some q' => left; simp [Bridge.spawnWorkerIfAbsent, hl]

/-- Witness for C6: two concrete messages enqueued into an empty queue are
dequeued in enqueue order. -/
theorem chatQueue_fifo_order_witness :
    Bridge.dequeueAt ⟨[msgA, msgB], [msgA, msgB]⟩ 0 = some msgA ∧
    Bridge.dequeueAt ⟨[msgA, msgB], [msgA, msgB]⟩ 1 = some msgB :=
  ⟨(chatQueue_fifo_order ⟨[], []⟩ ⟨[msgA], [msgA]⟩ ⟨[msgA, msgB], [msgA, msgB]⟩ msgA msgB
      [] [] "oc_chat1" rfl rfl).1,
   (chatQueue_fifo_order ⟨[], []⟩ ⟨[msgA], [msgA]⟩ ⟨[msgA, msgB], [msgA, msgB]⟩ msgA msgB
      [] [] "oc_chat1" rfl rfl).2.1⟩

/-- C4: in per-message processing (no concurrent invalidation, message not
recalled), a first turn-start failing with a "thread not found" error leads to
deleting the chat's session, creating a new thread, persisting it, and exactly
one retried turn-start; a first failure of any other kind is reported to the
chat and aborts the message after a single attempt; a failure of the retry is
reported and aborts with no further attempt. -/
theorem turnStart_thread_not_found_retry_policy (chatID threadID nt m m2 : String)
    (gen : Nat) (env : Bridge.TurnEnv) :
    (env.firstTurn = .err m → strContains m "thread not found" = true →
      env.newThread = .ok nt →
        Bridge.countTurnStarts (Bridge.startTurnPhase chatID threadID gen gen false env).1 = 2 ∧
        Bridge.BridgeAction.deleteSession chatID ∈
          (Bridge.startTurnPhase chatID threadID gen gen false env).1 ∧
        Bridge.BridgeAction.threadStart ∈
          (Bridge.startTurnPhase chatID threadID gen gen false env).1 ∧
        Bridge.BridgeAction.createSession chatID nt ∈
          (Bridge.startTurnPhase chatID threadID gen gen false env).1) ∧
    (env.firstTurn = .err m → strContains m "thread not found" = false →
        Bridge.countTurnStarts (Bridge.startTurnPhase chatID threadID gen gen false env).1 = 1 ∧
        (Bridge.startTurnPhase chatID threadID gen gen false env).2 = none ∧
        Bridge.BridgeAction.replyError ("❌ 发送请求失败: " ++ m) ∈
          (Bridge.startTurnPhase chatID threadID gen gen false env).1) ∧
    (env.firstTurn = .err m → strContains m "thread not found" = true →
      env.newThread = .ok nt → env.retryTurn = .err m2 →
        (Bridge.startTurnPhase chatID threadID gen gen false env).2 = none ∧
        Bridge.countTurnStarts (Bridge.startTurnPhase chatID threadID gen gen false env).1 = 2 ∧
        Bridge.BridgeAction.replyError ("❌ 发送请求失败: " ++ m2) ∈
          (Bridge.startTurnPhase chatID threadID gen gen false env).1) := by
  refine ⟨?_, ?_, ?_⟩
  · intro h1 h2 h3
    cases hr : env.retryTurn with
    | ok t =>
      simp [Bridge.startTurnPhase, h1, h2, h3, hr, Bridge.sendReplyActs,
        Bridge.countTurnStarts, Bridge.isTurnStartAct, List.countP_cons, List.countP_append]
    | err m2x =>
      simp [Bridge.startTurnPhase, h1, h2, h3, hr, Bridge.sendReplyActs,
        Bridge.countTurnStarts, Bridge.isTurnStartAct, List.countP_cons, List.countP_append]
  · intro h1 h2
    simp [Bridge.startTurnPhase, h1, h2, Bridge.sendReplyActs,
      Bridge.countTurnStarts, Bridge.isTurnStartAct, List.countP_cons, List.countP_append]
  · intro h1 h2 h3 h4
    simp [Bridge.startTurnPhase, h1, h2, h3, h4, Bridge.sendReplyActs,
      Bridge.countTurnStarts, Bridge.isTurnStartAct, List.countP_cons, List.countP_append]

/-- Witness for C4: a thread-not-found first failure whose retry also fails
(applies the retry branch and the retry-failure branch), and a plain first
failure (applies the no-retry branch), all at concrete inputs. -/
theorem turnStart_thread_not_found_retry_policy_witness :
    (Bridge.countTurnStarts (Bridge.startTurnPhase "oc_chat1" "t-old" 0 0 false
        ⟨.err "RPC error -32603: thread not found", .ok "t-new", .err "boom"⟩).1 = 2 ∧
      Bridge.BridgeAction.deleteSession "oc_chat1" ∈
        (Bridge.startTurnPhase "oc_chat1" "t-old" 0 0 false
          ⟨.err "RPC error -32603: thread not found", .ok "t-new", .err "boom"⟩).1 ∧
      Bridge.BridgeAction.threadStart ∈
        (Bridge.startTurnPhase "oc_chat1" "t-old" 0 0 false
          ⟨.err "RPC error -32603: thread not found", .ok "t-new", .err "boom"⟩).1 ∧
      Bridge.BridgeAction.createSession "oc_chat1" "t-new" ∈
        (Bridge.startTurnPhase "oc_chat1" "t-old" 0 0 false
          ⟨.err "RPC error -32603: thread not found", .ok "t-new", .err "boom"⟩).1) ∧
    ((Bridge.startTurnPhase "oc_chat1" "t-old" 0 0 false
        ⟨.err "RPC error -32603: thread not found", .ok "t-new", .err "boom"⟩).2 = none ∧
      Bridge.countTurnStarts (Bridge.startTurnPhase "oc_chat1" "t-old" 0 0 false
        ⟨.err "RPC error -32603: thread not found", .ok "t-new", .err "boom"⟩).1 = 2 ∧
      Bridge.BridgeAction.replyError ("❌ 发送请求失败: " ++ "boom") ∈
        (Bridge.startTurnPhase "oc_chat1" "t-old" 0 0 false
          ⟨.err "RPC error -32603: thread not found", .ok "t-new", .err "boom"⟩).1) ∧
    (Bridge.countTurnStarts (Bridge.startTurnPhase "oc_chat1" "t-old" 0 0 false
        ⟨.err "RPC error -32000: overloaded", .ok "t-new", .ok "u1"⟩).1 = 1 ∧
      (Bridge.startTurnPhase "oc_chat1" "t-old" 0 0 false
        ⟨.err "RPC error -32000: overloaded", .ok "t-new", .ok "u1"⟩).2 = none ∧
      Bridge.BridgeAction.replyError ("❌ 发送请求失败: " ++ "RPC error -32000: overloaded") ∈
        (Bridge.startTurnPhase "oc_chat1" "t-old" 0 0 false
          ⟨.err "RPC error -32000: overloaded", .ok "t-new", .ok "u1"⟩).1) :=
  ⟨(turnStart_thread_not_found_retry_policy "oc_chat1" "t-old" "t-new"
      "RPC error -32603: thread not found" "boom" 0
      ⟨.err "RPC error -32603: thread not found", .ok "t-new", .err "boom"⟩).1
      rfl (by decide) rfl,
   (turnStart_thread_not_found_retry_policy "oc_chat1" "t-old" "t-new"
      "RPC error -32603: thread not found" "boom" 0
      ⟨.err "RPC error -32603: thread not found", .ok "t-new", .err "boom"⟩).2.2
      rfl (by decide) rfl rfl,
   (turnStart_thread_not_found_retry_policy "oc_chat1" "t-old" "t-new"
      "RPC error -32000: overloaded" "boom" 0
      ⟨.err "RPC error -32000: overloaded", .ok "t-new", .ok "u1"⟩).2.1
      rfl (by decide)⟩
